import Mathlib

/-!
# The OpenSSL compatibility shim of BlueCryptor (`Sources/OpenSSL/shim.h`)

The header defines four `static inline` wrappers around functions of the
linked OpenSSL library.  Which library call a wrapper makes is decided by the
preprocessor from `OPENSSL_VERSION_NUMBER`.

Embedding.

* `OPENSSL_VERSION_NUMBER` is a parameter of every wrapper (a natural number),
  and an `#if` of the header is an `if` on it.
* The library is not part of the repository: it is a parameter `L : OpenSSL σ`,
  a record of the four functions the header calls and of the constant
  `SSL_CTRL_SET_ECDH_AUTO`, acting on a `Machine σ` (caller-visible memory
  cells and the library's own state `σ`).
* A wrapper is a state transformer on a `World σ`: the machine together with
  the list of library calls made so far.  The list is only ever extended by
  `logged`, the one place where a library function is applied.
* The first three wrappers are declared without a return type and have no
  `return` statement; what they hand back is `none`.  The fourth is declared
  `int` and returns on every path.
-/

namespace Shim

/-- Address of a C object (a context, a session, a callback, a buffer, a cell). -/
abbrev Ptr := Nat

/-- The null pointer. -/
def NULL : Ptr := 0

/-- One call into the library, with the arguments it was given. -/
inductive Call where
  | SSL_CTX_set_alpn_select_cb (ctx cb arg : Ptr)
  | SSL_get0_alpn_selected (ssl data len : Ptr)
  | SSL_CTX_ctrl (ctx : Ptr) (cmd : Int) (larg : Int) (parg : Ptr)
  | EVP_DigestVerifyFinal (ctx sig : Ptr) (siglen : Nat)
  deriving DecidableEq, Repr

/-- What a library function can read and write: the memory cells the caller
can see (`mem p` is the content of the cell at address `p`) and the
library's own state. -/
structure Machine (σ : Type) where
  mem : Ptr → Nat
  lib : σ

/-- The part of the linked library that the header uses.  The two ALPN
functions return `void`; `SSL_CTX_ctrl` returns a `long` and
`EVP_DigestVerifyFinal` an `int`. -/
structure OpenSSL (σ : Type) where
  SSL_CTRL_SET_ECDH_AUTO : Int
  SSL_CTX_set_alpn_select_cb : Ptr → Ptr → Ptr → Machine σ → Machine σ
  SSL_get0_alpn_selected : Ptr → Ptr → Ptr → Machine σ → Machine σ
  SSL_CTX_ctrl : Ptr → Int → Int → Ptr → Machine σ → Int × Machine σ
  EVP_DigestVerifyFinal : Ptr → Ptr → Nat → Machine σ → Int × Machine σ

/-- The machine and the library calls made so far, oldest first. -/
structure World (σ : Type) where
  machine : Machine σ
  log : List Call

variable {σ : Type}

/-- Apply a library function to the machine and record the call. -/
def logged {α : Type} (c : Call) (f : Machine σ → α × Machine σ) : StateM (World σ) α :=
  fun w => ((f w.machine).1, { machine := (f w.machine).2, log := w.log ++ [c] })

/-- The statement `SSL_CTX_set_alpn_select_cb(ctx, cb, arg);`. -/
def call_SSL_CTX_set_alpn_select_cb (L : OpenSSL σ) (ctx cb arg : Ptr) : StateM (World σ) Unit :=
  logged (Call.SSL_CTX_set_alpn_select_cb ctx cb arg)
    (fun m => ((), L.SSL_CTX_set_alpn_select_cb ctx cb arg m))

/-- The statement `SSL_get0_alpn_selected(ssl, data, len);`. -/
def call_SSL_get0_alpn_selected (L : OpenSSL σ) (ssl data len : Ptr) : StateM (World σ) Unit :=
  logged (Call.SSL_get0_alpn_selected ssl data len)
    (fun m => ((), L.SSL_get0_alpn_selected ssl data len m))

/-- The expression `SSL_CTX_ctrl(ctx, cmd, larg, parg)`. -/
def call_SSL_CTX_ctrl (L : OpenSSL σ) (ctx : Ptr) (cmd larg : Int) (parg : Ptr) :
    StateM (World σ) Int :=
  logged (Call.SSL_CTX_ctrl ctx cmd larg parg) (L.SSL_CTX_ctrl ctx cmd larg parg)

/-- The expression `EVP_DigestVerifyFinal(ctx, sig, siglen)`. -/
def call_EVP_DigestVerifyFinal (L : OpenSSL σ) (ctx sig : Ptr) (siglen : Nat) :
    StateM (World σ) Int :=
  logged (Call.EVP_DigestVerifyFinal ctx sig siglen) (L.EVP_DigestVerifyFinal ctx sig siglen)

/-- `SSL_CTX_set_alpn_select_cb_wrapper` (shim.h, lines 36-46). -/
def SSL_CTX_set_alpn_select_cb_wrapper (L : OpenSSL σ) (OPENSSL_VERSION_NUMBER : Nat)
    (ctx cb arg : Ptr) : StateM (World σ) (Option Int) := do
  if OPENSSL_VERSION_NUMBER ≥ 0x10002000 then
    call_SSL_CTX_set_alpn_select_cb L ctx cb arg
  return none

/-- `SSL_get0_alpn_selected_wrapper` (shim.h, lines 51-56). -/
def SSL_get0_alpn_selected_wrapper (L : OpenSSL σ) (OPENSSL_VERSION_NUMBER : Nat)
    (ssl data len : Ptr) : StateM (World σ) (Option Int) := do
  if OPENSSL_VERSION_NUMBER ≥ 0x10002000 then
    call_SSL_get0_alpn_selected L ssl data len
  return none

/-- `SSL_CTX_setAutoECDH` (shim.h, lines 60-65).  The value of the
`SSL_CTX_ctrl` call is not used. -/
def SSL_CTX_setAutoECDH (L : OpenSSL σ) (OPENSSL_VERSION_NUMBER : Nat)
    (ctx : Ptr) : StateM (World σ) (Option Int) := do
  if OPENSSL_VERSION_NUMBER ≥ 0x1000200f ∧ OPENSSL_VERSION_NUMBER < 0x10100000 then
    let _ ← call_SSL_CTX_ctrl L ctx L.SSL_CTRL_SET_ECDH_AUTO 1 NULL
  return none

/-- `SSL_EVP_digestVerifyFinal_wrapper` (shim.h, lines 69-79): both
preprocessor branches are kept. -/
def SSL_EVP_digestVerifyFinal_wrapper (L : OpenSSL σ) (OPENSSL_VERSION_NUMBER : Nat)
    (ctx sig : Ptr) (siglen : Nat) : StateM (World σ) Int := do
  if OPENSSL_VERSION_NUMBER ≥ 0x1000200f then
    return (← call_EVP_DigestVerifyFinal L ctx sig siglen)
  else
    return (← call_EVP_DigestVerifyFinal L ctx sig siglen)

/-! ## A small concrete library, to run the wrappers on concrete inputs -/

/-- State of the sample library: the registered ALPN callback and its
argument, the negotiated protocol (address and length), whether automatic
curve selection is on, and the signature (address and length) the pending
verification accepts. -/
structure SampleState where
  alpn_cb : Ptr
  alpn_arg : Ptr
  proto : Ptr
  proto_len : Nat
  ecdh_auto : Bool
  good_sig : Ptr
  good_len : Nat
  deriving DecidableEq, Repr

/-- A sample library over `SampleState`. -/
def sampleLib : OpenSSL SampleState where
  SSL_CTRL_SET_ECDH_AUTO := 94
  SSL_CTX_set_alpn_select_cb := fun _ cb arg m =>
    { m with lib := { m.lib with alpn_cb := cb, alpn_arg := arg } }
  SSL_get0_alpn_selected := fun _ data len m =>
    { m with mem := fun p =>
        if p = len then m.lib.proto_len else if p = data then m.lib.proto else m.mem p }
  SSL_CTX_ctrl := fun _ cmd larg _ m =>
    if cmd = 94 then (1, { m with lib := { m.lib with ecdh_auto := decide (larg ≠ 0) } })
    else (0, m)
  EVP_DigestVerifyFinal := fun _ sig siglen m =>
    (if sig = m.lib.good_sig ∧ siglen = m.lib.good_len then 1 else 0, m)

/-- A sample world: cell 200 holds 7, cell 201 holds 9, no call made yet. -/
def sampleWorld : World SampleState where
  machine :=
    { mem := fun p => if p = 200 then 7 else if p = 201 then 9 else 0
      lib := { alpn_cb := 0, alpn_arg := 0, proto := 300, proto_len := 2,
               ecdh_auto := false, good_sig := 400, good_len := 64 } }
  log := []

/-! ## What each wrapper computes -/

theorem set_alpn_select_cb_run (L : OpenSSL σ) (v : Nat) (ctx cb arg : Ptr) (w : World σ) :
    SSL_CTX_set_alpn_select_cb_wrapper L v ctx cb arg w =
      if v ≥ 0x10002000 then
        (none, { machine := L.SSL_CTX_set_alpn_select_cb ctx cb arg w.machine,
                 log := w.log ++ [Call.SSL_CTX_set_alpn_select_cb ctx cb arg] })
      else (none, w) := by
  unfold SSL_CTX_set_alpn_select_cb_wrapper
  split <;> rfl

theorem get0_alpn_selected_run (L : OpenSSL σ) (v : Nat) (ssl data len : Ptr) (w : World σ) :
    SSL_get0_alpn_selected_wrapper L v ssl data len w =
      if v ≥ 0x10002000 then
        (none, { machine := L.SSL_get0_alpn_selected ssl data len w.machine,
                 log := w.log ++ [Call.SSL_get0_alpn_selected ssl data len] })
      else (none, w) := by
  unfold SSL_get0_alpn_selected_wrapper
  split <;> rfl

theorem setAutoECDH_run (L : OpenSSL σ) (v : Nat) (ctx : Ptr) (w : World σ) :
    SSL_CTX_setAutoECDH L v ctx w =
      if v ≥ 0x1000200f ∧ v < 0x10100000 then
        (none, { machine := (L.SSL_CTX_ctrl ctx L.SSL_CTRL_SET_ECDH_AUTO 1 NULL w.machine).2,
                 log := w.log ++ [Call.SSL_CTX_ctrl ctx L.SSL_CTRL_SET_ECDH_AUTO 1 NULL] })
      else (none, w) := by
  unfold SSL_CTX_setAutoECDH
  split <;> rfl

theorem digestVerifyFinal_run (L : OpenSSL σ) (v : Nat) (ctx sig : Ptr) (siglen : Nat)
    (w : World σ) :
    SSL_EVP_digestVerifyFinal_wrapper L v ctx sig siglen w =
      ((L.EVP_DigestVerifyFinal ctx sig siglen w.machine).1,
       { machine := (L.EVP_DigestVerifyFinal ctx sig siglen w.machine).2,
         log := w.log ++ [Call.EVP_DigestVerifyFinal ctx sig siglen] }) := by
  unfold SSL_EVP_digestVerifyFinal_wrapper
  split <;> rfl

/-- A log extended by one call is not the log it extends. -/
theorem log_ne_snoc (l : List Call) (c : Call) : l ≠ l ++ [c] := by
  intro h
  have := congrArg List.length h
  simp at this

/-! ## The claims -/

/-- C1: at every version, `SSL_EVP_digestVerifyFinal_wrapper` makes exactly one
library call, `EVP_DigestVerifyFinal(ctx, sig, siglen)` with the arguments it
was given, leaves the machine as that call leaves it, and returns the integer
that call returns; so it returns 1 exactly when the library does, and a value
other than 1 exactly when the library does. -/
theorem digestVerifyFinal_passes_result_through (L : OpenSSL σ) (v : Nat) (ctx sig : Ptr)
    (siglen : Nat) (w : World σ) :
    (SSL_EVP_digestVerifyFinal_wrapper L v ctx sig siglen w).2.log
        = w.log ++ [Call.EVP_DigestVerifyFinal ctx sig siglen]
    ∧ (SSL_EVP_digestVerifyFinal_wrapper L v ctx sig siglen w).2.machine
        = (L.EVP_DigestVerifyFinal ctx sig siglen w.machine).2
    ∧ (SSL_EVP_digestVerifyFinal_wrapper L v ctx sig siglen w).1
        = (L.EVP_DigestVerifyFinal ctx sig siglen w.machine).1
    ∧ ((SSL_EVP_digestVerifyFinal_wrapper L v ctx sig siglen w).1 = 1
        ↔ (L.EVP_DigestVerifyFinal ctx sig siglen w.machine).1 = 1)
    ∧ ((SSL_EVP_digestVerifyFinal_wrapper L v ctx sig siglen w).1 ≠ 1
        ↔ (L.EVP_DigestVerifyFinal ctx sig siglen w.machine).1 ≠ 1) := by
  rw [digestVerifyFinal_run]
  exact ⟨rfl, rfl, rfl, Iff.rfl, Iff.rfl⟩

/-- C1, evaluated: on the sample library the wrapper returns 1 for the signature
the library accepts (at a version on each side of the `#if`). -/
theorem digestVerifyFinal_passes_result_through_witness :
    (SSL_EVP_digestVerifyFinal_wrapper sampleLib 0x1000100f 1 400 64 sampleWorld).1 = 1
    ∧ (SSL_EVP_digestVerifyFinal_wrapper sampleLib 0x1000200f 1 400 64 sampleWorld).1 = 1 :=
  ⟨((digestVerifyFinal_passes_result_through sampleLib 0x1000100f 1 400 64
      sampleWorld).2.2.2.1).mpr (by decide),
   ((digestVerifyFinal_passes_result_through sampleLib 0x1000200f 1 400 64
      sampleWorld).2.2.2.1).mpr (by decide)⟩

/-- C2: when `OPENSSL_VERSION_NUMBER >= 0x10002000`,
`SSL_CTX_set_alpn_select_cb_wrapper` makes exactly one library call,
`SSL_CTX_set_alpn_select_cb(ctx, cb, arg)` with the arguments it was given, and
the machine is what that call leaves; when the version is smaller it makes no
library call and the machine and the call log are unchanged. -/
theorem set_alpn_select_cb_forwards_from_1_0_2 (L : OpenSSL σ) (v : Nat) (ctx cb arg : Ptr)
    (w : World σ) :
    (v ≥ 0x10002000 →
      (SSL_CTX_set_alpn_select_cb_wrapper L v ctx cb arg w).2.log
          = w.log ++ [Call.SSL_CTX_set_alpn_select_cb ctx cb arg]
      ∧ (SSL_CTX_set_alpn_select_cb_wrapper L v ctx cb arg w).2.machine
          = L.SSL_CTX_set_alpn_select_cb ctx cb arg w.machine)
    ∧ (v < 0x10002000 →
      (SSL_CTX_set_alpn_select_cb_wrapper L v ctx cb arg w).2 = w) := by
  rw [set_alpn_select_cb_run]
  constructor
  · intro h
    rw [if_pos h]
    exact ⟨rfl, rfl⟩
  · intro h
    rw [if_neg (Nat.not_le.mpr h)]

/-- C2, evaluated on the sample library at 1.0.2-dev (one call, the callback is
registered) and at 1.0.1 (nothing happens). -/
theorem set_alpn_select_cb_forwards_from_1_0_2_witness :
    ((SSL_CTX_set_alpn_select_cb_wrapper sampleLib 0x10002000 1 2 3 sampleWorld).2.log
        = sampleWorld.log ++ [Call.SSL_CTX_set_alpn_select_cb 1 2 3]
      ∧ (SSL_CTX_set_alpn_select_cb_wrapper sampleLib 0x10002000 1 2 3 sampleWorld).2.machine
        = sampleLib.SSL_CTX_set_alpn_select_cb 1 2 3 sampleWorld.machine)
    ∧ (SSL_CTX_set_alpn_select_cb_wrapper sampleLib 0x1000100f 1 2 3 sampleWorld).2
        = sampleWorld :=
  ⟨(set_alpn_select_cb_forwards_from_1_0_2 sampleLib 0x10002000 1 2 3 sampleWorld).1
      (by decide),
   (set_alpn_select_cb_forwards_from_1_0_2 sampleLib 0x1000100f 1 2 3 sampleWorld).2
      (by decide)⟩

/-- C3: when `OPENSSL_VERSION_NUMBER < 0x10002000`,
`SSL_get0_alpn_selected_wrapper(ssl, data, len)` leaves the cells `*data` and
`*len` (and the whole machine) as they were and makes no library call. -/
theorem get0_alpn_selected_untouched_before_1_0_2 (L : OpenSSL σ) (v : Nat)
    (ssl data len : Ptr) (w : World σ) (hv : v < 0x10002000) :
    (SSL_get0_alpn_selected_wrapper L v ssl data len w).2.machine.mem data = w.machine.mem data
    ∧ (SSL_get0_alpn_selected_wrapper L v ssl data len w).2.machine.mem len = w.machine.mem len
    ∧ (SSL_get0_alpn_selected_wrapper L v ssl data len w).2.log = w.log
    ∧ (SSL_get0_alpn_selected_wrapper L v ssl data len w).2 = w := by
  rw [get0_alpn_selected_run, if_neg (Nat.not_le.mpr hv)]
  exact ⟨rfl, rfl, rfl, rfl⟩

/-- C3, evaluated: at 1.0.1 the cells 200 and 201 of the sample world still
hold 7 and 9 after the call, and no call is logged. -/
theorem get0_alpn_selected_untouched_before_1_0_2_witness :
    (SSL_get0_alpn_selected_wrapper sampleLib 0x1000100f 1 200 201 sampleWorld).2.machine.mem 200
        = 7
    ∧ (SSL_get0_alpn_selected_wrapper sampleLib 0x1000100f 1 200 201 sampleWorld).2.machine.mem 201
        = 9
    ∧ (SSL_get0_alpn_selected_wrapper sampleLib 0x1000100f 1 200 201 sampleWorld).2.log = [] :=
  ⟨(get0_alpn_selected_untouched_before_1_0_2 sampleLib 0x1000100f 1 200 201 sampleWorld
      (by decide)).1,
   (get0_alpn_selected_untouched_before_1_0_2 sampleLib 0x1000100f 1 200 201 sampleWorld
      (by decide)).2.1,
   (get0_alpn_selected_untouched_before_1_0_2 sampleLib 0x1000100f 1 200 201 sampleWorld
      (by decide)).2.2.1⟩

/-- C4: when `OPENSSL_VERSION_NUMBER >= 0x10002000`, after
`SSL_get0_alpn_selected_wrapper(ssl, data, len)` the cells `*data` and `*len`
(and the whole machine) hold what the single library call
`SSL_get0_alpn_selected(ssl, data, len)`, made with the same arguments, leaves
in them. -/
theorem get0_alpn_selected_forwards_from_1_0_2 (L : OpenSSL σ) (v : Nat)
    (ssl data len : Ptr) (w : World σ) (hv : v ≥ 0x10002000) :
    (SSL_get0_alpn_selected_wrapper L v ssl data len w).2.machine.mem data
        = (L.SSL_get0_alpn_selected ssl data len w.machine).mem data
    ∧ (SSL_get0_alpn_selected_wrapper L v ssl data len w).2.machine.mem len
        = (L.SSL_get0_alpn_selected ssl data len w.machine).mem len
    ∧ (SSL_get0_alpn_selected_wrapper L v ssl data len w).2.machine
        = L.SSL_get0_alpn_selected ssl data len w.machine
    ∧ (SSL_get0_alpn_selected_wrapper L v ssl data len w).2.log
        = w.log ++ [Call.SSL_get0_alpn_selected ssl data len] := by
  rw [get0_alpn_selected_run, if_pos hv]
  exact ⟨rfl, rfl, rfl, rfl⟩

/-- C4, evaluated: at 1.0.2-dev the cells 200 and 201 of the sample world
receive what the sample library's accessor writes, and one call is logged. -/
theorem get0_alpn_selected_forwards_from_1_0_2_witness :
    (SSL_get0_alpn_selected_wrapper sampleLib 0x10002000 1 200 201 sampleWorld).2.machine.mem 200
        = (sampleLib.SSL_get0_alpn_selected 1 200 201 sampleWorld.machine).mem 200
    ∧ (SSL_get0_alpn_selected_wrapper sampleLib 0x10002000 1 200 201 sampleWorld).2.machine.mem 201
        = (sampleLib.SSL_get0_alpn_selected 1 200 201 sampleWorld.machine).mem 201
    ∧ (SSL_get0_alpn_selected_wrapper sampleLib 0x10002000 1 200 201 sampleWorld).2.log
        = sampleWorld.log ++ [Call.SSL_get0_alpn_selected 1 200 201] :=
  ⟨(get0_alpn_selected_forwards_from_1_0_2 sampleLib 0x10002000 1 200 201 sampleWorld
      (by decide)).1,
   (get0_alpn_selected_forwards_from_1_0_2 sampleLib 0x10002000 1 200 201 sampleWorld
      (by decide)).2.1,
   (get0_alpn_selected_forwards_from_1_0_2 sampleLib 0x10002000 1 200 201 sampleWorld
      (by decide)).2.2.2⟩

/-- C5: when `0x1000200f <= OPENSSL_VERSION_NUMBER < 0x10100000`,
`SSL_CTX_setAutoECDH(ctx)` makes exactly one library call,
`SSL_CTX_ctrl(ctx, SSL_CTRL_SET_ECDH_AUTO, 1, NULL)`, and the machine is what
that call leaves; at every other version it makes no library call and the
machine and the call log are unchanged. -/
theorem setAutoECDH_calls_exactly_in_range (L : OpenSSL σ) (v : Nat) (ctx : Ptr)
    (w : World σ) :
    (0x1000200f ≤ v ∧ v < 0x10100000 →
      (SSL_CTX_setAutoECDH L v ctx w).2.log
          = w.log ++ [Call.SSL_CTX_ctrl ctx L.SSL_CTRL_SET_ECDH_AUTO 1 NULL]
      ∧ (SSL_CTX_setAutoECDH L v ctx w).2.machine
          = (L.SSL_CTX_ctrl ctx L.SSL_CTRL_SET_ECDH_AUTO 1 NULL w.machine).2)
    ∧ (v < 0x1000200f ∨ v ≥ 0x10100000 →
      (SSL_CTX_setAutoECDH L v ctx w).2 = w) := by
  rw [setAutoECDH_run]
  constructor
  · intro h
    rw [if_pos h]
    exact ⟨rfl, rfl⟩
  · intro h
    rw [if_neg (by omega)]

/-- C5, evaluated on the sample library: one control call at 1.0.2, none at
1.0.2-dev, none at 1.1.0. -/
theorem setAutoECDH_calls_exactly_in_range_witness :
    (SSL_CTX_setAutoECDH sampleLib 0x1000200f 1 sampleWorld).2.log
        = sampleWorld.log ++ [Call.SSL_CTX_ctrl 1 94 1 0]
    ∧ (SSL_CTX_setAutoECDH sampleLib 0x10002000 1 sampleWorld).2 = sampleWorld
    ∧ (SSL_CTX_setAutoECDH sampleLib 0x10100000 1 sampleWorld).2 = sampleWorld :=
  ⟨((setAutoECDH_calls_exactly_in_range sampleLib 0x1000200f 1 sampleWorld).1
      (by decide)).1,
   (setAutoECDH_calls_exactly_in_range sampleLib 0x10002000 1 sampleWorld).2
      (Or.inl (by decide)),
   (setAutoECDH_calls_exactly_in_range sampleLib 0x10100000 1 sampleWorld).2
      (Or.inr (by decide))⟩

/-- C6 as stated fails: at version 0x1000200f `SSL_CTX_setAutoECDH` does make a
library call (the log changes), the sample library's `SSL_CTX_ctrl` returns 1,
and that result is not what the wrapper hands back. -/
theorem result_forwarding_counterexample :
    ¬ ((SSL_CTX_setAutoECDH sampleLib 0x1000200f 1 sampleWorld).2.log = sampleWorld.log
       ∨ (SSL_CTX_setAutoECDH sampleLib 0x1000200f 1 sampleWorld).1
          = some (sampleLib.SSL_CTX_ctrl 1 sampleLib.SSL_CTRL_SET_ECDH_AUTO 1 NULL
              sampleWorld.machine).1) := by
  decide

/-- C6, amended: every operation makes either no library call or exactly one.
`SSL_EVP_digestVerifyFinal_wrapper` returns the result of its
`EVP_DigestVerifyFinal` call unchanged.  `SSL_CTX_setAutoECDH` and the two ALPN
wrappers hand back no value, at every version and whatever the library
returned: the result of `SSL_CTX_ctrl` is dropped, and the two ALPN library
functions have no result. -/
theorem result_forwarded_only_by_digestVerifyFinal (L : OpenSSL σ) (v : Nat)
    (ctx cb arg ssl data len mdctx sig : Ptr) (siglen : Nat) (w : World σ) :
    ((SSL_EVP_digestVerifyFinal_wrapper L v mdctx sig siglen w).2.log
        = w.log ++ [Call.EVP_DigestVerifyFinal mdctx sig siglen]
      ∧ (SSL_EVP_digestVerifyFinal_wrapper L v mdctx sig siglen w).1
        = (L.EVP_DigestVerifyFinal mdctx sig siglen w.machine).1)
    ∧ (((SSL_CTX_setAutoECDH L v ctx w).2.log = w.log
        ∨ (SSL_CTX_setAutoECDH L v ctx w).2.log
            = w.log ++ [Call.SSL_CTX_ctrl ctx L.SSL_CTRL_SET_ECDH_AUTO 1 NULL])
      ∧ (SSL_CTX_setAutoECDH L v ctx w).1 = none)
    ∧ (((SSL_CTX_set_alpn_select_cb_wrapper L v ctx cb arg w).2.log = w.log
        ∨ (SSL_CTX_set_alpn_select_cb_wrapper L v ctx cb arg w).2.log
            = w.log ++ [Call.SSL_CTX_set_alpn_select_cb ctx cb arg])
      ∧ (SSL_CTX_set_alpn_select_cb_wrapper L v ctx cb arg w).1 = none)
    ∧ (((SSL_get0_alpn_selected_wrapper L v ssl data len w).2.log = w.log
        ∨ (SSL_get0_alpn_selected_wrapper L v ssl data len w).2.log
            = w.log ++ [Call.SSL_get0_alpn_selected ssl data len])
      ∧ (SSL_get0_alpn_selected_wrapper L v ssl data len w).1 = none) := by
  rw [digestVerifyFinal_run, setAutoECDH_run, set_alpn_select_cb_run, get0_alpn_selected_run]
  refine ⟨⟨rfl, rfl⟩, ?_, ?_, ?_⟩
  · split
    · exact ⟨Or.inr rfl, rfl⟩
    · exact ⟨Or.inl rfl, rfl⟩
  · split
    · exact ⟨Or.inr rfl, rfl⟩
    · exact ⟨Or.inl rfl, rfl⟩
  · split
    · exact ⟨Or.inr rfl, rfl⟩
    · exact ⟨Or.inl rfl, rfl⟩

/-- C7: the wrapper compiled for a version below 0x1000200f and the wrapper
compiled for a version at or above it are the same function of `ctx`, `sig`,
`siglen` and the world: same library call, same arguments, same result. -/
theorem digestVerifyFinal_branches_equal (L : OpenSSL σ) (v1 v2 : Nat)
    (h1 : v1 < 0x1000200f) (h2 : v2 ≥ 0x1000200f) :
    SSL_EVP_digestVerifyFinal_wrapper L v1 = SSL_EVP_digestVerifyFinal_wrapper L v2 := by
  funext ctx sig siglen w
  have e1 : SSL_EVP_digestVerifyFinal_wrapper L v1 ctx sig siglen w
      = call_EVP_DigestVerifyFinal L ctx sig siglen w := by
    unfold SSL_EVP_digestVerifyFinal_wrapper
    rw [if_neg (Nat.not_le.mpr h1)]
    rfl
  have e2 : SSL_EVP_digestVerifyFinal_wrapper L v2 ctx sig siglen w
      = call_EVP_DigestVerifyFinal L ctx sig siglen w := by
    unfold SSL_EVP_digestVerifyFinal_wrapper
    rw [if_pos h2]
    rfl
  rw [e1, e2]

/-- C7, evaluated: on the sample library the wrapper for 1.0.1 and the wrapper
for 1.0.2 are the same function. -/
theorem digestVerifyFinal_branches_equal_witness :
    SSL_EVP_digestVerifyFinal_wrapper sampleLib 0x1000100f
      = SSL_EVP_digestVerifyFinal_wrapper sampleLib 0x1000200f :=
  digestVerifyFinal_branches_equal sampleLib 0x1000100f 0x1000200f (by decide) (by decide)

/-- C8 as stated fails: 0x10002000 is below 0x10100000, there
`SSL_CTX_set_alpn_select_cb_wrapper` forwards its registration call, and
`SSL_CTX_setAutoECDH` does not issue its control call. -/
theorem shared_lower_bound_counterexample :
    (0x10002000 : Nat) < 0x10100000
    ∧ ¬ ((SSL_CTX_setAutoECDH sampleLib 0x10002000 1 sampleWorld).2.log
            = sampleWorld.log ++ [Call.SSL_CTX_ctrl 1 sampleLib.SSL_CTRL_SET_ECDH_AUTO 1 NULL]
          ↔ (SSL_CTX_set_alpn_select_cb_wrapper sampleLib 0x10002000 1 2 3 sampleWorld).2.log
            = sampleWorld.log ++ [Call.SSL_CTX_set_alpn_select_cb 1 2 3]) := by
  decide

/-- C8, amended: for every version below 0x10100000 that is not in the window
`0x10002000 <= v < 0x1000200f`, `SSL_CTX_setAutoECDH` issues its control call
if and only if `SSL_CTX_set_alpn_select_cb_wrapper` forwards its registration
call; and `SSL_CTX_set_alpn_select_cb_wrapper` forwards if and only if
`SSL_get0_alpn_selected_wrapper` forwards.  Inside the window the two ALPN
wrappers forward and `SSL_CTX_setAutoECDH` makes no call. -/
theorem lower_bounds_agree_outside_window (L : OpenSSL σ) (v : Nat)
    (ctx ctx2 cb arg ssl data len : Ptr) (w w2 w3 : World σ) (hv : v < 0x10100000) :
    (¬ (0x10002000 ≤ v ∧ v < 0x1000200f) →
      ((SSL_CTX_setAutoECDH L v ctx w).2.log
          = w.log ++ [Call.SSL_CTX_ctrl ctx L.SSL_CTRL_SET_ECDH_AUTO 1 NULL]
        ↔ (SSL_CTX_set_alpn_select_cb_wrapper L v ctx2 cb arg w2).2.log
          = w2.log ++ [Call.SSL_CTX_set_alpn_select_cb ctx2 cb arg]))
    ∧ ((SSL_CTX_set_alpn_select_cb_wrapper L v ctx2 cb arg w2).2.log
          = w2.log ++ [Call.SSL_CTX_set_alpn_select_cb ctx2 cb arg]
        ↔ (SSL_get0_alpn_selected_wrapper L v ssl data len w3).2.log
          = w3.log ++ [Call.SSL_get0_alpn_selected ssl data len])
    ∧ (0x10002000 ≤ v ∧ v < 0x1000200f →
      (SSL_CTX_set_alpn_select_cb_wrapper L v ctx2 cb arg w2).2.log
          = w2.log ++ [Call.SSL_CTX_set_alpn_select_cb ctx2 cb arg]
      ∧ (SSL_get0_alpn_selected_wrapper L v ssl data len w3).2.log
          = w3.log ++ [Call.SSL_get0_alpn_selected ssl data len]
      ∧ (SSL_CTX_setAutoECDH L v ctx w).2.log = w.log) := by
  rw [setAutoECDH_run, set_alpn_select_cb_run, get0_alpn_selected_run]
  refine ⟨?_, ?_, ?_⟩
  · intro hw
    by_cases ha : v ≥ 0x10002000
    · have he : v ≥ 0x1000200f ∧ v < 0x10100000 := by omega
      rw [if_pos ha, if_pos he]
      exact ⟨fun _ => rfl, fun _ => rfl⟩
    · have he : ¬ (v ≥ 0x1000200f ∧ v < 0x10100000) := by omega
      rw [if_neg ha, if_neg he]
      exact ⟨fun h => absurd h (log_ne_snoc _ _), fun h => absurd h (log_ne_snoc _ _)⟩
  · by_cases ha : v ≥ 0x10002000
    · rw [if_pos ha, if_pos ha]
      exact ⟨fun _ => rfl, fun _ => rfl⟩
    · rw [if_neg ha, if_neg ha]
      exact ⟨fun h => absurd h (log_ne_snoc _ _), fun h => absurd h (log_ne_snoc _ _)⟩
  · intro hw
    have he : ¬ (v ≥ 0x1000200f ∧ v < 0x10100000) := by omega
    rw [if_pos hw.1, if_pos hw.1, if_neg he]
    exact ⟨rfl, rfl, rfl⟩

/-- C8 amended, evaluated on the sample library: at 1.0.2 (0x1000200f) the
control call and the registration call are both made, and the two ALPN
wrappers agree. -/
theorem lower_bounds_agree_outside_window_witness :
    ((SSL_CTX_setAutoECDH sampleLib 0x1000200f 1 sampleWorld).2.log
        = sampleWorld.log ++ [Call.SSL_CTX_ctrl 1 sampleLib.SSL_CTRL_SET_ECDH_AUTO 1 NULL]
      ↔ (SSL_CTX_set_alpn_select_cb_wrapper sampleLib 0x1000200f 1 2 3 sampleWorld).2.log
        = sampleWorld.log ++ [Call.SSL_CTX_set_alpn_select_cb 1 2 3])
    ∧ ((SSL_CTX_set_alpn_select_cb_wrapper sampleLib 0x1000200f 1 2 3 sampleWorld).2.log
        = sampleWorld.log ++ [Call.SSL_CTX_set_alpn_select_cb 1 2 3]
      ↔ (SSL_get0_alpn_selected_wrapper sampleLib 0x1000200f 1 200 201 sampleWorld).2.log
        = sampleWorld.log ++ [Call.SSL_get0_alpn_selected 1 200 201]) :=
  ⟨(lower_bounds_agree_outside_window sampleLib 0x1000200f 1 1 2 3 1 200 201
      sampleWorld sampleWorld sampleWorld (by decide)).1 (by decide),
   (lower_bounds_agree_outside_window sampleLib 0x1000200f 1 1 2 3 1 200 201
      sampleWorld sampleWorld sampleWorld (by decide)).2.1⟩

/-- C9: if at version `v` `SSL_CTX_setAutoECDH(ctx)` makes its `SSL_CTX_ctrl`
call, then at the same `v` `SSL_CTX_set_alpn_select_cb_wrapper` makes its
`SSL_CTX_set_alpn_select_cb` call and `SSL_get0_alpn_selected_wrapper` makes
its `SSL_get0_alpn_selected` call, whatever their arguments. -/
theorem autoECDH_versions_within_alpn_versions (L : OpenSSL σ) (v : Nat) (ctx : Ptr)
    (w : World σ)
    (h : (SSL_CTX_setAutoECDH L v ctx w).2.log
          = w.log ++ [Call.SSL_CTX_ctrl ctx L.SSL_CTRL_SET_ECDH_AUTO 1 NULL]) :
    (∀ (ctx2 cb arg : Ptr) (w2 : World σ),
      (SSL_CTX_set_alpn_select_cb_wrapper L v ctx2 cb arg w2).2.log
        = w2.log ++ [Call.SSL_CTX_set_alpn_select_cb ctx2 cb arg])
    ∧ (∀ (ssl data len : Ptr) (w3 : World σ),
      (SSL_get0_alpn_selected_wrapper L v ssl data len w3).2.log
        = w3.log ++ [Call.SSL_get0_alpn_selected ssl data len]) := by
  have hr : v ≥ 0x1000200f ∧ v < 0x10100000 := by
    by_contra hn
    rw [setAutoECDH_run, if_neg hn] at h
    exact log_ne_snoc _ _ h
  have ha : v ≥ 0x10002000 := by omega
  constructor
  · intro ctx2 cb arg w2
    rw [set_alpn_select_cb_run, if_pos ha]
  · intro ssl data len w3
    rw [get0_alpn_selected_run, if_pos ha]

/-- C9, evaluated on the sample library at 1.0.2: the control call is made, and
so are the registration call and the accessor call. -/
theorem autoECDH_versions_within_alpn_versions_witness :
    (SSL_CTX_set_alpn_select_cb_wrapper sampleLib 0x1000200f 1 2 3 sampleWorld).2.log
        = sampleWorld.log ++ [Call.SSL_CTX_set_alpn_select_cb 1 2 3]
    ∧ (SSL_get0_alpn_selected_wrapper sampleLib 0x1000200f 1 200 201 sampleWorld).2.log
        = sampleWorld.log ++ [Call.SSL_get0_alpn_selected 1 200 201] :=
  ⟨(autoECDH_versions_within_alpn_versions sampleLib 0x1000200f 1 sampleWorld (by decide)).1
      1 2 3 sampleWorld,
   (autoECDH_versions_within_alpn_versions sampleLib 0x1000200f 1 sampleWorld (by decide)).2
      1 200 201 sampleWorld⟩

end Shim
